import Mathlib

/-!
Verification of the mason read simulator core
(`extras/apps/mason2/mason_simulator.cpp`).

This file shallowly embeds the record-building layer of the simulator:
the single-end and paired-end `RecordBuilder`s, the MD-string function
`getMDString2`, the read-id scheme `_setId`, and the fragment-distribution
loop of `MasonSimulatorApp::_simulateReads`.  The `PositionMap` and the
banded `globalAlignment` routine live outside the translated unit and are
taken as parameters (oracles); everything the builders compute from their
answers is embedded faithfully, statement for statement.
-/

set_option maxHeartbeats 1000000
set_option maxRecDepth 10000

-- ==========================================================================
-- Alphabet and basic string operations
-- ==========================================================================

/-- The 5-letter DNA alphabet `seqan::Dna5`. -/
inductive Dna5 : Type
  | A | C | G | T | N
deriving DecidableEq, Repr

/-- Complement of a `Dna5` character (`N` is self-complementary). -/
def complementDna5 : Dna5 → Dna5
  | .A => .T
  | .T => .A
  | .C => .G
  | .G => .C
  | .N => .N

/-- `seqan::reverseComplement`: reverse the sequence and complement each base. -/
def reverseComplement (s : List Dna5) : List Dna5 :=
  (s.map complementDna5).reverse

/-- One CIGAR element (`seqan::CigarElement`): an operation character and a count. -/
structure CigarElement where
  operation : Char
  count : Nat
deriving DecidableEq, Repr

/-- Modelled from the spec: `_getLengthInRef` (sequencing.h, outside the translated
unit) — the number of reference positions consumed by a CIGAR, i.e. the sum of the
counts of its `M` and `D` elements. -/
def _getLengthInRef (cigar : List CigarElement) : Int :=
  cigar.foldl
    (fun acc e => if e.operation = 'M' ∨ e.operation = 'D' then acc + e.count else acc) 0

-- ==========================================================================
-- SequencingSimulationInfo and PositionMap
-- ==========================================================================

/-- The true-origin description produced by the sequencing simulator. -/
structure SequencingSimulationInfo where
  rID : Int
  hID : Int
  beginPos : Int
  isForward : Bool
  cigar : List CigarElement
deriving DecidableEq, Repr

/-- Kind of a genomic interval in the position map. -/
inductive GIKind : Type
  | NORMAL | INSERTED
deriving DecidableEq, Repr

/-- The part of `GenomicInterval` the record builders read: its kind. -/
structure GenomicInterval where
  kind : GIKind
deriving DecidableEq, Repr

/-- The `PositionMap` as the builders see it: a pure three-way coordinate
translator.  Its implementation lives outside the translated unit, so it is
taken as an oracle; the builders only ever call these four operations. -/
structure PositionMap where
  overlapsWithBreakpoint : Int → Int → Bool
  getGenomicInterval : Int → GenomicInterval
  toSmallVarInterval : Int → Int → Int × Int
  toOriginalInterval : Int → Int → Int × Int

-- ==========================================================================
-- BAM record model
-- ==========================================================================

/-- `seqan::BamAlignmentRecord::INVALID_REFID` sentinel. -/
def INVALID_REFID : Int := -1

/-- `seqan::BamAlignmentRecord::INVALID_POS` sentinel. -/
def INVALID_POS : Int := -1

/-- `seqan::BamAlignmentRecord::INVALID_LEN` sentinel. -/
def INVALID_LEN : Int := 0

/-- A BAM tag value: int, string or char, as used by the builders. -/
inductive BamTagValue : Type
  | intVal (v : Int)
  | strVal (v : String)
  | charVal (v : Char)
deriving DecidableEq, Repr

/-- `setTagValue` on a tags dictionary: replace the value of an existing key,
otherwise append the pair. -/
def setTagValue (tags : List (String × BamTagValue)) (key : String) (v : BamTagValue) :
    List (String × BamTagValue) :=
  if tags.any (fun p => p.1 == key) then
    tags.map (fun p => if p.1 == key then (key, v) else p)
  else
    tags ++ [(key, v)]

/-- Look up a tag value by key. -/
def lookupTag (key : String) (tags : List (String × BamTagValue)) : Option BamTagValue :=
  (tags.find? (fun p => p.1 == key)).map (fun p => p.2)

/-- SAM flag bits (`seqan::BAM_FLAG_*`, the standard SAM values). -/
def BAM_FLAG_MULTIPLE : Nat := 1

def BAM_FLAG_ALL_PROPER : Nat := 2

def BAM_FLAG_UNMAPPED : Nat := 4

def BAM_FLAG_NEXT_UNMAPPED : Nat := 8

def BAM_FLAG_RC : Nat := 16

def BAM_FLAG_NEXT_RC : Nat := 32

def BAM_FLAG_FIRST : Nat := 64

def BAM_FLAG_LAST : Nat := 128

/-- A SAM/BAM alignment record, with the fields the builders fill. -/
structure BamAlignmentRecord where
  qName : String := ""
  flag : Nat := 0
  rID : Int := INVALID_REFID
  beginPos : Int := INVALID_POS
  mapQ : Nat := 0
  cigar : List CigarElement := []
  rNextId : Int := INVALID_REFID
  pNext : Int := INVALID_POS
  tLen : Int := INVALID_LEN
  seq : List Dna5 := []
  qual : List Char := []
  tags : List (String × BamTagValue) := []
deriving DecidableEq, Repr

/-- `seqan::hasFlagRC`. -/
def hasFlagRC (r : BamAlignmentRecord) : Bool :=
  r.flag &&& BAM_FLAG_RC != 0

-- ==========================================================================
-- Alignment oracle (seqan globalAlignment, outside the translated unit)
-- ==========================================================================

/-- Modelled from the spec: the `seqan::Score<int, Simple>` scheme built by the
builders (library code outside the translated unit).  The spec reads the four
constructor arguments `(0, -1000, -1001, -1002)` as match, mismatch, gap-open
and gap-extend scores, in that order. -/
structure ScoreScheme where
  matchScore : Int
  mismatchScore : Int
  gapOpenScore : Int
  gapExtendScore : Int
deriving DecidableEq, Repr

/-- The outcome of a banded global alignment: the score and the two gapped
rows (reference row and read row); `none` entries are gaps. -/
structure AlignmentResult where
  score : Int
  gapsContig : List (Option Dna5)
  gapsRead : List (Option Dna5)

/-- The banded `globalAlignment` routine, taken as an oracle: arguments are the
reference slice, the read, the scoring scheme and the lower/upper band diagonals. -/
def GlobalAlignmentFun : Type :=
  List Dna5 → List Dna5 → ScoreScheme → Int → Int → AlignmentResult

/-- The reference slice `[beginPos, endPos)` (`seqan::Infix` of the reference). -/
def refSliceOf (s : List Dna5) (beginPos endPos : Int) : List Dna5 :=
  (s.drop beginPos.toNat).take (endPos - beginPos).toNat

/-- Lower band diagonal: `-std::max((int)(length(seq) - length(contigSlice)), 0) - 3`
(the unsigned difference cast to `int` behaves as the signed difference for the
sequence lengths in range). -/
def bandLDiag (contigLen seqLen : Nat) : Int :=
  -(max ((seqLen : Int) - (contigLen : Int)) 0) - 3

/-- Upper band diagonal: `std::max((int)(length(contigSlice) - length(seq)), 0) + 3`. -/
def bandUDiag (contigLen seqLen : Nat) : Int :=
  max ((contigLen : Int) - (seqLen : Int)) 0 + 3

/-- Modelled from the spec: `seqan::getCigarString` (library code outside the
translated unit) — the canonical CIGAR over `{M, I, D}` read off the two gapped
rows, run-length encoded. -/
def getCigarString (gapsContig gapsRead : List (Option Dna5)) : List CigarElement :=
  let ops := (gapsContig.zip gapsRead).filterMap fun p =>
    match p with
    | (some _, some _) => some 'M'
    | (some _, none) => some 'D'
    | (none, some _) => some 'I'
    | (none, none) => none
  (ops.foldl
    (fun acc c =>
      match acc with
      | [] => [CigarElement.mk c 1]
      | e :: rest =>
        if e.operation = c then CigarElement.mk c (e.count + 1) :: rest
        else CigarElement.mk c 1 :: e :: rest)
    []).reverse

-- ==========================================================================
-- getMDString2 (mason_simulator.cpp, lines 1118-1185)
-- ==========================================================================

/-- The character written into the MD string for a reference base. -/
def mdOpChar : Dna5 → Char
  | .A => 'A'
  | .C => 'C'
  | .G => 'G'
  | .T => 'T'
  | .N => 'N'

/-- Loop state of `getMDString2`: the last op, the current match-run length and
the string built so far. -/
structure MDState where
  lastOp : Char
  numOps : Nat
  md : String
deriving DecidableEq, Repr

/-- One iteration of the `getMDString2` loop, for the pair of gapped-row entries
at the current position.  `p.1` is the reference row entry, `p.2` the read row
entry; a `none` reference entry is skipped (`if (isGap(it1)) continue;`).
The transition tests for `^` and `0` compare against `lastOp` AFTER it has been
updated in the match-run block, exactly as the source does. -/
def getMDString2Step (st : MDState) (p : Option Dna5 × Option Dna5) : MDState :=
  match p.1 with
  | none => st
  | some x1 =>
    let op : Char :=
      match p.2 with
      | none => 'D'
      | some x2 => if x1 = x2 then 'M' else 'R'
    -- append match run
    let st :=
      if st.lastOp ≠ op then
        { lastOp := op, numOps := 0,
          md := if st.lastOp = 'M' then st.md ++ toString st.numOps else st.md }
      else st
    -- append deleted/replaced reference character
    let st :=
      if op ≠ 'M' then
        let md := st.md
        -- add ^ from non-deletion to deletion
        let md := if op = 'D' ∧ st.lastOp ≠ 'D' then md.push '^' else md
        -- add 0 from deletion to replacement
        let md := if op = 'R' ∧ st.lastOp = 'D' then md.push '0' else md
        { st with md := md.push (mdOpChar x1) }
      else st
    { st with numOps := st.numOps + 1 }

/-- `getMDString2`: walk the two gapped rows in lockstep and build the MD string. -/
def getMDString2 (gaps1 gaps2 : List (Option Dna5)) : String :=
  let st := (gaps1.zip gaps2).foldl getMDString2Step ⟨' ', 0, ""⟩
  if st.lastOp = 'M' then st.md ++ toString st.numOps else st.md

-- ==========================================================================
-- Shared builder steps (SingleEndRecordBuilder / PairedEndRecordBuilder)
-- ==========================================================================

/-- The read state a builder owns and restores: the simulation info, the read
sequence and the quality string. -/
structure ReadState where
  info : SequencingSimulationInfo
  seq : List Dna5
  qual : List Char
deriving DecidableEq, Repr

/-- `_flipState`: when `doFlip`, reverse-complement the sequence, reverse the
quality string and reverse the info CIGAR (both builders have this method with
identical bodies). -/
def _flipState (doFlip : Bool) (st : ReadState) : ReadState :=
  if doFlip then
    { info := { st.info with cigar := st.info.cigar.reverse },
      seq := reverseComplement st.seq,
      qual := st.qual.reverse }
  else st

/-- `_fillUnaligned` (identical in both builders): mark the record unmapped,
clear `rID`/`beginPos`, copy sequence and quality in simulator orientation and
emit the `uR`, `oR`, `oP`, `oH`, `oS` tags. -/
def _fillUnaligned (record : BamAlignmentRecord) (info : SequencingSimulationInfo)
    (seq : List Dna5) (qual : List Char) (refName : String) (hID : Int)
    (overlapsWithBreakpoint : Bool) : BamAlignmentRecord :=
  let record :=
    { record with
      flag := BAM_FLAG_UNMAPPED,
      rID := INVALID_REFID,
      beginPos := INVALID_POS,
      seq := seq,
      qual := qual }
  let tags := record.tags
  let tags := setTagValue tags "uR"
    (BamTagValue.charVal (if overlapsWithBreakpoint then 'B' else 'I'))
  let tags := setTagValue tags "oR" (BamTagValue.strVal refName)
  let tags := setTagValue tags "oP" (BamTagValue.intVal info.beginPos)
  let tags := setTagValue tags "oH" (BamTagValue.intVal (hID + 1))
  let tags := setTagValue tags "oS"
    (BamTagValue.charVal (if info.isForward then 'F' else 'R'))
  { record with tags := tags }

/-- `_fillTags` (identical in both builders): emit `NM`, `MD`, `oR`, `oH`,
`oP`, `oS`. -/
def _fillTags (record : BamAlignmentRecord) (refName : String) (hID : Int)
    (info : SequencingSimulationInfo) (editDistance : Int) (mdString : String) :
    BamAlignmentRecord :=
  let tags := record.tags
  let tags := setTagValue tags "NM" (BamTagValue.intVal editDistance)
  let tags := setTagValue tags "MD" (BamTagValue.strVal mdString)
  let tags := setTagValue tags "oR" (BamTagValue.strVal refName)
  let tags := setTagValue tags "oH" (BamTagValue.intVal (hID + 1))
  let tags := setTagValue tags "oP" (BamTagValue.intVal info.beginPos)
  let tags := setTagValue tags "oS"
    (BamTagValue.charVal (if info.isForward then 'F' else 'R'))
  { record with tags := tags }

/-- `_alignAndSetCigar` (identical in both builders): realign the read against
the reference slice `[beginPos, endPos)` with scoring `(0, -1000, -1001, -1002)`
and band `[bandLDiag, bandUDiag]`, convert the score to an edit distance by
C-style division by `-1000`, and produce the CIGAR and the MD string from the
gapped rows.  Returns the updated record, the edit distance and the MD string. -/
def _alignAndSetCigar (ga : GlobalAlignmentFun) (refSeq : List Dna5)
    (record : BamAlignmentRecord) (seq : List Dna5) (beginPos endPos : Int) :
    BamAlignmentRecord × Int × String :=
  let contigSlice := refSliceOf refSeq beginPos endPos
  let sScheme : ScoreScheme := ⟨0, -1000, -1001, -1002⟩
  let res := ga contigSlice seq sScheme
    (bandLDiag contigSlice.length seq.length)
    (bandUDiag contigSlice.length seq.length)
  let editDistance := Int.tdiv res.score (-1000)
  ({ record with cigar := getCigarString res.gapsContig res.gapsRead },
   editDistance,
   getMDString2 res.gapsContig res.gapsRead)

/-- `_fillAligned` (identical in both builders up to which member state is
threaded): translate the interval to small-variant and then original
coordinates, flip the read state when `info.isForward == isRC`, set the RC
flag under the same condition, realign, fill the positional fields, restore
the state by flipping again, and fill the tags. -/
def _fillAligned (ga : GlobalAlignmentFun) (posMap : PositionMap) (refName : String)
    (refSeq : List Dna5) (rID hID : Int) (record : BamAlignmentRecord)
    (st : ReadState) (len : Int) : BamAlignmentRecord × ReadState :=
  let intSmallVar := posMap.toSmallVarInterval st.info.beginPos (st.info.beginPos + len)
  let isRC : Bool := decide (intSmallVar.1 > intSmallVar.2)
  let intSmallVar := if isRC then (intSmallVar.2, intSmallVar.1) else intSmallVar
  let intOriginal := posMap.toOriginalInterval intSmallVar.1 intSmallVar.2
  let doFlip : Bool := st.info.isForward == isRC
  let st1 := _flipState doFlip st
  let record := if doFlip then { record with flag := record.flag ||| BAM_FLAG_RC } else record
  let acr := _alignAndSetCigar ga refSeq record st1.seq intOriginal.1 intOriginal.2
  let record := acr.1
  let editDistance := acr.2.1
  let mdString := acr.2.2
  let record :=
    { record with rID := rID, beginPos := intOriginal.1, seq := st1.seq, qual := st1.qual }
  let st2 := _flipState doFlip st1
  (_fillTags record refName hID st2.info editDistance mdString, st2)

/-- Whether an alignment overlaps with a breakpoint:
`posMap.overlapsWithBreakpoint(info.beginPos, info.beginPos + len)` with `len`
the reference length of the info CIGAR. -/
def overlapsBP (posMap : PositionMap) (info : SequencingSimulationInfo) : Bool :=
  posMap.overlapsWithBreakpoint info.beginPos (info.beginPos + _getLengthInRef info.cigar)

/-- The unmapped condition of both builders: the alignment overlaps a breakpoint
or (otherwise) the genomic interval at `beginPos` has kind `INSERTED` (the `||`
in the source short-circuits, so the interval is only consulted when there is
no breakpoint overlap). -/
def isUnmappedRead (posMap : PositionMap) (info : SequencingSimulationInfo) : Bool :=
  overlapsBP posMap info ||
    (posMap.getGenomicInterval info.beginPos).kind == GIKind.INSERTED

-- ==========================================================================
-- SingleEndRecordBuilder (mason_simulator.cpp, lines 69-249)
-- ==========================================================================

/-- `SingleEndRecordBuilder::_initialize`: reset the record, clear the mate
fields to the invalid sentinels, and set `info.rID`/`info.hID`. -/
def SingleEndRecordBuilder._initialize (info : SequencingSimulationInfo)
    (rID hID : Int) : BamAlignmentRecord × SequencingSimulationInfo :=
  ({ flag := 0, rNextId := INVALID_REFID, pNext := INVALID_POS, tLen := INVALID_LEN },
   { info with rID := rID, hID := hID })

/-- `SingleEndRecordBuilder::build`: initialize, compute the reference length
of the info CIGAR, and fill the record as unaligned or aligned depending on
the breakpoint/inserted-region test.  Returns the record and the (restored)
read state. -/
def SingleEndRecordBuilder.build (ga : GlobalAlignmentFun) (posMap : PositionMap)
    (refName : String) (refSeq : List Dna5) (rID hID fID : Int) (st : ReadState) :
    BamAlignmentRecord × ReadState :=
  let ini := SingleEndRecordBuilder._initialize st.info rID hID
  let record := ini.1
  let st := { st with info := ini.2 }
  let len := _getLengthInRef st.info.cigar
  let overlapsWithBreakpoint := overlapsBP posMap st.info
  if isUnmappedRead posMap st.info then
    (_fillUnaligned record st.info st.seq st.qual refName hID overlapsWithBreakpoint, st)
  else
    _fillAligned ga posMap refName refSeq rID hID record st len

-- ==========================================================================
-- PairedEndRecordBuilder (mason_simulator.cpp, lines 259-541)
-- ==========================================================================

/-- The paired builder's state: both infos, sequences and quality strings. -/
structure PairState where
  infoL : SequencingSimulationInfo
  infoR : SequencingSimulationInfo
  seqL : List Dna5
  seqR : List Dna5
  qualL : List Char
  qualR : List Char
deriving DecidableEq, Repr

/-- The both-mapped arm of the flag/tLen completion in
`PairedEndRecordBuilder::build` (source lines 342-369): `ALL_PROPER` on both,
`tLen` when on the same contig, mate fields, and `NEXT_RC` propagation. -/
def _pairCompleteBothMapped (lenL lenR : Int) (recL recR : BamAlignmentRecord) :
    BamAlignmentRecord × BamAlignmentRecord :=
  let recL1 := { recL with flag := recL.flag ||| BAM_FLAG_ALL_PROPER }
  let recR1 := { recR with flag := recR.flag ||| BAM_FLAG_ALL_PROPER }
  let pr :=
    if recL1.rID == recR1.rID then
      let tLenL :=
        if recL1.beginPos < recR1.beginPos then
          recR1.beginPos + lenR - recL1.beginPos
        else
          recL1.beginPos + lenL - recR1.beginPos
      ({ recL1 with tLen := tLenL }, { recR1 with tLen := -tLenL })
    else
      ({ recL1 with tLen := INVALID_LEN }, { recR1 with tLen := INVALID_LEN })
  let recL2 := { pr.1 with rNextId := pr.2.rID, pNext := pr.2.beginPos }
  let recR2 := { pr.2 with rNextId := pr.1.rID, pNext := pr.1.beginPos }
  let recR3 :=
    if hasFlagRC recL2 then { recR2 with flag := recR2.flag ||| BAM_FLAG_NEXT_RC }
    else recR2
  let recL3 :=
    if hasFlagRC recR3 then { recL2 with flag := recL2.flag ||| BAM_FLAG_NEXT_RC }
    else recL2
  (recL3, recR3)

/-- The mapped-left/unmapped-right arm of the completion (source lines
370-379): copy the mapped mate's position into the unmapped record, set
`UNMAPPED` on it and `NEXT_UNMAPPED` on the mapped one, invalidate `tLen`. -/
def _pairCompleteUnmappedR (recL recR : BamAlignmentRecord) :
    BamAlignmentRecord × BamAlignmentRecord :=
  let recR1 := { recR with rID := recL.rID, beginPos := recL.beginPos }
  let recR2 := { recR1 with flag := recR1.flag ||| BAM_FLAG_UNMAPPED }
  let recL1 := { recL with flag := recL.flag ||| BAM_FLAG_NEXT_UNMAPPED }
  ({ recL1 with tLen := INVALID_LEN }, { recR2 with tLen := INVALID_LEN })

/-- The unmapped-left/mapped-right arm of the completion (source lines
380-389), symmetric to the previous one. -/
def _pairCompleteUnmappedL (recL recR : BamAlignmentRecord) :
    BamAlignmentRecord × BamAlignmentRecord :=
  let recL1 := { recL with rID := recR.rID, beginPos := recR.beginPos }
  let recL2 := { recL1 with flag := recL1.flag ||| BAM_FLAG_UNMAPPED }
  let recR1 := { recR with flag := recR.flag ||| BAM_FLAG_NEXT_UNMAPPED }
  ({ recL2 with tLen := INVALID_LEN }, { recR1 with tLen := INVALID_LEN })

/-- The both-unmapped arm of the completion, transcribed verbatim from source
lines 390-396: the source repeats the two statements
`recordL.flag |= UNMAPPED; recordR.flag |= NEXT_UNMAPPED;` twice. -/
def _pairCompleteBothUnmapped (recL recR : BamAlignmentRecord) :
    BamAlignmentRecord × BamAlignmentRecord :=
  let recL1 := { recL with flag := recL.flag ||| BAM_FLAG_UNMAPPED }
  let recR1 := { recR with flag := recR.flag ||| BAM_FLAG_NEXT_UNMAPPED }
  let recL2 := { recL1 with flag := recL1.flag ||| BAM_FLAG_UNMAPPED }
  let recR2 := { recR1 with flag := recR1.flag ||| BAM_FLAG_NEXT_UNMAPPED }
  (recL2, recR2)

/-- The "Complete flags and tLen" section of `PairedEndRecordBuilder::build`
(source lines 334-396): `FIRST`/`LAST`/`MULTIPLE`, then the four-way case
split on which mates are unmapped. -/
def _pairComplete (unmappedL unmappedR : Bool) (lenL lenR : Int)
    (recL recR : BamAlignmentRecord) : BamAlignmentRecord × BamAlignmentRecord :=
  let recL1 := { recL with flag := recL.flag ||| BAM_FLAG_FIRST ||| BAM_FLAG_MULTIPLE }
  let recR1 := { recR with flag := recR.flag ||| BAM_FLAG_LAST ||| BAM_FLAG_MULTIPLE }
  if !unmappedL && !unmappedR then _pairCompleteBothMapped lenL lenR recL1 recR1
  else if !unmappedL && unmappedR then _pairCompleteUnmappedR recL1 recR1
  else if unmappedL && !unmappedR then _pairCompleteUnmappedL recL1 recR1
  else _pairCompleteBothUnmapped recL1 recR1

/-- `PairedEndRecordBuilder::build`: initialize both records, fill each mate as
unaligned or aligned, then complete the pairing flags, `tLen` and the mate
fields.  Returns both records and the (restored) pair state. -/
def PairedEndRecordBuilder.build (ga : GlobalAlignmentFun) (posMap : PositionMap)
    (refName : String) (refSeq : List Dna5) (rID hID fID : Int) (st : PairState) :
    BamAlignmentRecord × BamAlignmentRecord × PairState :=
  -- _initialize
  let recordL : BamAlignmentRecord :=
    { flag := 0, rNextId := INVALID_REFID, pNext := INVALID_POS, tLen := INVALID_LEN }
  let recordR : BamAlignmentRecord :=
    { flag := 0, rNextId := INVALID_REFID, pNext := INVALID_POS, tLen := INVALID_LEN }
  let infoL := { st.infoL with rID := rID, hID := hID }
  let infoR := { st.infoR with rID := rID, hID := hID }
  let lenL := _getLengthInRef infoL.cigar
  let lenR := _getLengthInRef infoR.cigar
  let overlapsWithBreakpointL := overlapsBP posMap infoL
  let overlapsWithBreakpointR := overlapsBP posMap infoR
  let unmappedL := isUnmappedRead posMap infoL
  let unmappedR := isUnmappedRead posMap infoR
  let frL :=
    if unmappedL then
      (_fillUnaligned recordL infoL st.seqL st.qualL refName hID overlapsWithBreakpointL,
       (⟨infoL, st.seqL, st.qualL⟩ : ReadState))
    else
      _fillAligned ga posMap refName refSeq rID hID recordL ⟨infoL, st.seqL, st.qualL⟩ lenL
  let frR :=
    if unmappedR then
      (_fillUnaligned recordR infoR st.seqR st.qualR refName hID overlapsWithBreakpointR,
       (⟨infoR, st.seqR, st.qualR⟩ : ReadState))
    else
      _fillAligned ga posMap refName refSeq rID hID recordR ⟨infoR, st.seqR, st.qualR⟩ lenR
  let outSt : PairState :=
    { infoL := frL.2.info, infoR := frR.2.info,
      seqL := frL.2.seq, seqR := frR.2.seq,
      qualL := frL.2.qual, qualR := frR.2.qual }
  let pr := _pairComplete unmappedL unmappedR lenL lenR frL.1 frR.1
  (pr.1, pr.2, outSt)

-- ==========================================================================
-- ReadSimulatorThread::_setId (mason_simulator.cpp, lines 605-623)
-- ==========================================================================

/-- `ReadSimulatorThread::_setId`: build a read/query name from the configured
prefix, the fragment id and the mate number.  `ser` stands in for
`SequencingSimulationInfo::serialize` (sequencing.h, outside the translated
unit).  `embedReadInfo` is `options->seqOptions.embedReadInfo`. -/
def setId (pfx : String) (embedReadInfo : Bool)
    (ser : SequencingSimulationInfo → String) (fragId : Int) (num : Nat)
    (info : SequencingSimulationInfo) (forceNoEmbed : Bool) : String :=
  let s := pfx
  let s :=
    if num == 0 || forceNoEmbed then s ++ toString (fragId + 1)
    else if num == 1 then s ++ toString (fragId + 1) ++ "/1"
    else s ++ toString (fragId + 1) ++ "/2"
  if embedReadInfo && !forceNoEmbed then s ++ " " ++ ser info else s

-- ==========================================================================
-- Fragment distribution (MasonSimulatorApp::_simulateReads, lines 922-929)
-- ==========================================================================

/-- The distribute phase: write each ordinal `i` in `0 .. numFragments-1` to
the bucket file chosen by `contigPicker.toId(contigPicker.pick())` at that
iteration; `pickId` is that (RNG-driven) choice as a function of the iteration.
Buckets are the per-(contig, haplotype) files of the `IdSplitter`. -/
def distributeFragmentIds (pickId : Nat → Nat) (numBuckets numFragments : Nat) :
    List (List Nat) :=
  (List.range numFragments).foldl
    (fun files i => files.set (pickId i) ((files.getD (pickId i) []) ++ [i]))
    (List.replicate numBuckets [])

-- ==========================================================================
-- Concrete fixtures for witnesses and counterexamples
-- ==========================================================================

/-- A trivial alignment oracle (the builders' observable behaviour proved below
does not depend on the oracle's answers). -/
def gaZero : GlobalAlignmentFun := fun _ _ _ _ _ => ⟨0, [], []⟩

/-- A position map with no breakpoints, all-NORMAL intervals and identity
coordinate translation. -/
def pmIdentity : PositionMap :=
  { overlapsWithBreakpoint := fun _ _ => false
    getGenomicInterval := fun _ => ⟨GIKind.NORMAL⟩
    toSmallVarInterval := fun a b => (a, b)
    toOriginalInterval := fun a b => (a, b) }

/-- A position map reporting a breakpoint overlap for every interval. -/
def pmAllBreak : PositionMap :=
  { overlapsWithBreakpoint := fun _ _ => true
    getGenomicInterval := fun _ => ⟨GIKind.NORMAL⟩
    toSmallVarInterval := fun a b => (a, b)
    toOriginalInterval := fun a b => (a, b) }

/-- A position map that reports every interval as coming from an inverted
structural variant: `toSmallVarInterval` answers with the endpoints swapped. -/
def pmInverted : PositionMap :=
  { overlapsWithBreakpoint := fun _ _ => false
    getGenomicInterval := fun _ => ⟨GIKind.NORMAL⟩
    toSmallVarInterval := fun a b => (b, a)
    toOriginalInterval := fun a b => (a, b) }

/-- A small reference sequence. -/
def refSeq0 : List Dna5 := List.replicate 12 Dna5.A

/-- A single-end read state: forward read of reference length 2 at position 2. -/
def seSt0 : ReadState :=
  ⟨⟨0, 0, 2, true, [⟨'M', 2⟩]⟩, [Dna5.A, Dna5.C], ['I', 'I']⟩

/-- A pair state: left mate covers `[2, 4)`, right mate covers `[0, 10)` —
the right mate begins upstream of the left and also ends downstream of it. -/
def pairSt0 : PairState :=
  ⟨⟨0, 0, 2, true, [⟨'M', 2⟩]⟩, ⟨0, 0, 0, true, [⟨'M', 10⟩]⟩,
   [Dna5.A, Dna5.C], [Dna5.A], ['I', 'I'], ['I']⟩

-- ==========================================================================
-- Derived notions used in statements
-- ==========================================================================

/-- The `isRC` bit computed in `_fillAligned`: the small-variant translation of
the simulated interval came back with its endpoints swapped (`a > b`),
signalling an inverted structural variant. -/
def alignedIsRC (pm : PositionMap) (info : SequencingSimulationInfo) (len : Int) : Bool :=
  decide ((pm.toSmallVarInterval info.beginPos (info.beginPos + len)).1 >
    (pm.toSmallVarInterval info.beginPos (info.beginPos + len)).2)

/-- The flip condition of `_fillAligned`: `info.isForward == isRC`. -/
def alignedDoFlip (pm : PositionMap) (info : SequencingSimulationInfo) (len : Int) : Bool :=
  info.isForward == alignedIsRC pm info len

-- ==========================================================================
-- Helper lemmas
-- ==========================================================================

theorem complementDna5_involutive (b : Dna5) :
    complementDna5 (complementDna5 b) = b := by
  cases b <;> rfl

theorem reverseComplement_reverseComplement (s : List Dna5) :
    reverseComplement (reverseComplement s) = s := by
  simp [reverseComplement, List.map_reverse, List.map_map, Function.comp_def,
    complementDna5_involutive]

theorem _flipState_flipState (doFlip : Bool) (st : ReadState) :
    _flipState doFlip (_flipState doFlip st) = st := by
  cases doFlip with
  | false => rfl
  | true =>
    simp [_flipState, reverseComplement_reverseComplement]

theorem isUnmappedRead_setIds (pm : PositionMap) (info : SequencingSimulationInfo)
    (r h : Int) :
    isUnmappedRead pm { info with rID := r, hID := h } = isUnmappedRead pm info := rfl

theorem overlapsBP_setIds (pm : PositionMap) (info : SequencingSimulationInfo)
    (r h : Int) :
    overlapsBP pm { info with rID := r, hID := h } = overlapsBP pm info := rfl

theorem _getLengthInRef_setIds (info : SequencingSimulationInfo) (r h : Int) :
    _getLengthInRef ({ info with rID := r, hID := h }).cigar = _getLengthInRef info.cigar := rfl

/-- The state returned by `_fillAligned` is the state it was given: the second
flip undoes the first. -/
theorem _fillAligned_state (ga : GlobalAlignmentFun) (posMap : PositionMap)
    (refName : String) (refSeq : List Dna5) (rID hID : Int)
    (record : BamAlignmentRecord) (st : ReadState) (len : Int) :
    (_fillAligned ga posMap refName refSeq rID hID record st len).2 = st := by
  simp only [_fillAligned, _flipState_flipState]

-- ==========================================================================
-- Claim theorems
-- ==========================================================================

/-- Claim C7 (code bug): on the two-column gapped input with reference `AC`
against read `A-` the source's `getMDString2` produces `"1C"`, not the
`"1^C"` the MD format (and the function's own comments) require; on reference
`ACG` against read `A-T` it produces `"1CG"` instead of `"1^C0G"`.  The `^`
and `0` emission tests compare `op` against `lastOp` after `lastOp` has
already been set to `op`, so they can never fire. -/
theorem c7_mdstring_eval :
    getMDString2 [some Dna5.A, some Dna5.C] [some Dna5.A, none] = "1C" ∧
    getMDString2 [some Dna5.A, some Dna5.C, some Dna5.G]
      [some Dna5.A, none, some Dna5.T] = "1CG" ∧
    ("1C" : String) ≠ "1^C" ∧ ("1CG" : String) ≠ "1^C0G" := by
  refine ⟨by decide, by decide, by decide, by decide⟩

/-- Claim C3 (counterexample): the worker sets every alignment record's query
name through `_setId` with `forceNoEmbed = true` (source lines 653, 654, 680),
and with that flag the mate number is ignored: for prefix `"sim"`, fragment id
0 and mate number 1 the query name is `"sim1"`, not `"sim1/1"` as the claim
states for the left mate. -/
theorem c3_qname_counterexample :
    setId "sim" true (fun _ => "INFO") 0 1
      ⟨0, 0, 2, true, [⟨'M', 2⟩]⟩ true = "sim1" ∧
    ("sim1" : String) ≠ "sim1/1" := by
  refine ⟨by decide, by decide⟩

/-- Claim C3 (amended): with `forceNoEmbed = true` — which is what the worker
passes for every alignment record, single-end or either mate — `_setId`
produces `prefix + (fragId + 1)` with no `/1` or `/2` suffix and never appends
the serialized `SequencingSimulationInfo`, for every prefix, embed setting,
serializer, fragment id and mate number. -/
theorem c3_qname_amended (pfx : String) (embedReadInfo : Bool)
    (ser : SequencingSimulationInfo → String) (fragId : Int) (num : Nat)
    (info : SequencingSimulationInfo) :
    setId pfx embedReadInfo ser fragId num info true = pfx ++ toString (fragId + 1) := by
  simp [setId]

/-- Claim C6 (counterexample): the claim reads the band as radius
`|length(reference slice) - length(read)| + 3` around the diagonal; for a
reference slice of length 6 and a read of length 2 that radius is 7, yet the
code's lower diagonal is `-3`, not `-7` — the band only extends by the length
difference on the side the difference points to. -/
theorem c6_band_counterexample :
    bandLDiag 6 2 = -3 ∧ bandUDiag 6 2 = 7 ∧
    bandLDiag 6 2 ≠ -(((6 : Int) - 2).natAbs + 3 : Int) := by
  refine ⟨by decide, by decide, by decide⟩

/-- Claim C6 (amended): `_alignAndSetCigar` performs the realignment with the
scoring scheme `(match 0, mismatch -1000, gap-open -1001, gap-extend -1002)`
and the asymmetric band with lower diagonal
`-(max(|read| - |slice|, 0) + 3)` and upper diagonal
`max(|slice| - |read|, 0) + 3`, and the `NM` edit distance is the resulting
score divided by `-1000` with C-style truncating division. -/
theorem c6_align_params_amended (ga : GlobalAlignmentFun) (refSeq : List Dna5)
    (record : BamAlignmentRecord) (seq : List Dna5) (beginPos endPos : Int) :
    (_alignAndSetCigar ga refSeq record seq beginPos endPos).2.1 =
      Int.tdiv
        (ga (refSliceOf refSeq beginPos endPos) seq
          (ScoreScheme.mk 0 (-1000) (-1001) (-1002))
          (-(max ((seq.length : Int) - ((refSliceOf refSeq beginPos endPos).length : Int)) 0) - 3)
          (max (((refSliceOf refSeq beginPos endPos).length : Int) - (seq.length : Int)) 0 + 3)).score
        (-1000) := rfl

/-- Claim C1 (code bug): with a position map that reports a breakpoint overlap
for every interval, both mates of `pairSt0` are unmapped; after
`PairedEndRecordBuilder.build` both records carry `UNMAPPED` and both template
lengths are invalid, but the left record does NOT carry `NEXT_UNMAPPED`
(its flag is `UNMAPPED|FIRST|MULTIPLE` = 69) while the right one does — the
source's both-unmapped branch sets `UNMAPPED` on the left record twice and
`NEXT_UNMAPPED` on the right record twice instead of setting both flags on
both records. -/
theorem c1_both_unmapped_missing_next_unmapped :
    (PairedEndRecordBuilder.build gaZero pmAllBreak "ref" [] 0 0 0 pairSt0).1.flag
        &&& BAM_FLAG_UNMAPPED ≠ 0 ∧
    (PairedEndRecordBuilder.build gaZero pmAllBreak "ref" [] 0 0 0 pairSt0).2.1.flag
        &&& BAM_FLAG_UNMAPPED ≠ 0 ∧
    (PairedEndRecordBuilder.build gaZero pmAllBreak "ref" [] 0 0 0 pairSt0).1.flag
        &&& BAM_FLAG_NEXT_UNMAPPED = 0 ∧
    (PairedEndRecordBuilder.build gaZero pmAllBreak "ref" [] 0 0 0 pairSt0).2.1.flag
        &&& BAM_FLAG_NEXT_UNMAPPED ≠ 0 ∧
    (PairedEndRecordBuilder.build gaZero pmAllBreak "ref" [] 0 0 0 pairSt0).1.tLen
        = INVALID_LEN ∧
    (PairedEndRecordBuilder.build gaZero pmAllBreak "ref" [] 0 0 0 pairSt0).2.1.tLen
        = INVALID_LEN := by
  refine ⟨by decide, by decide, by decide, by decide, by decide, by decide⟩

/-- Claim C2 (counterexample): in `pairSt0` both mates are mapped to the same
contig, the left mate covers `[2, 4)` and the right mate covers `[0, 10)`, so
the upstream mate is the right one and `max end - min begin = 10`; but the
build gives the left record `tLen = 4` (its own end minus the right begin) and
the right record `tLen = -4`: the magnitude is not `max end - min begin` and
the upstream mate's template length is negative, refuting both parts of the
claim (while `tLen(L) = -tLen(R)` does hold). -/
theorem c2_tlen_counterexample :
    (PairedEndRecordBuilder.build gaZero pmIdentity "ref" refSeq0 0 0 0 pairSt0).1.flag
        &&& BAM_FLAG_UNMAPPED = 0 ∧
    (PairedEndRecordBuilder.build gaZero pmIdentity "ref" refSeq0 0 0 0 pairSt0).2.1.flag
        &&& BAM_FLAG_UNMAPPED = 0 ∧
    (PairedEndRecordBuilder.build gaZero pmIdentity "ref" refSeq0 0 0 0 pairSt0).1.beginPos
        = 2 ∧
    (PairedEndRecordBuilder.build gaZero pmIdentity "ref" refSeq0 0 0 0 pairSt0).2.1.beginPos
        = 0 ∧
    (PairedEndRecordBuilder.build gaZero pmIdentity "ref" refSeq0 0 0 0 pairSt0).1.tLen
        = 4 ∧
    (PairedEndRecordBuilder.build gaZero pmIdentity "ref" refSeq0 0 0 0 pairSt0).2.1.tLen
        = -4 ∧
    ((4 : Int).natAbs ≠ 10 ∧
      ¬ (0 < (PairedEndRecordBuilder.build gaZero pmIdentity "ref" refSeq0 0 0 0 pairSt0).2.1.tLen)) := by
  refine ⟨by decide, by decide, by decide, by decide, by decide, by decide, by decide, by decide⟩

theorem alignedIsRC_setIds (pm : PositionMap) (info : SequencingSimulationInfo)
    (r h len : Int) :
    alignedIsRC pm { info with rID := r, hID := h } len = alignedIsRC pm info len := rfl

theorem alignedDoFlip_setIds (pm : PositionMap) (info : SequencingSimulationInfo)
    (r h len : Int) :
    alignedDoFlip pm { info with rID := r, hID := h } len = alignedDoFlip pm info len := rfl

/-- Field characterization of the record produced by `_fillAligned`: the mate
fields pass through untouched, `rID` is set, and the flag, sequence and
quality are determined by the flip condition. -/
theorem _fillAligned_fields (ga : GlobalAlignmentFun) (pm : PositionMap)
    (refName : String) (refSeq : List Dna5) (rID hID : Int)
    (record : BamAlignmentRecord) (st : ReadState) (len : Int) :
    (_fillAligned ga pm refName refSeq rID hID record st len).1.rNextId = record.rNextId ∧
    (_fillAligned ga pm refName refSeq rID hID record st len).1.pNext = record.pNext ∧
    (_fillAligned ga pm refName refSeq rID hID record st len).1.tLen = record.tLen ∧
    (_fillAligned ga pm refName refSeq rID hID record st len).1.rID = rID ∧
    (_fillAligned ga pm refName refSeq rID hID record st len).1.flag =
      (if alignedDoFlip pm st.info len then record.flag ||| BAM_FLAG_RC else record.flag) ∧
    (_fillAligned ga pm refName refSeq rID hID record st len).1.seq =
      (if alignedDoFlip pm st.info len then reverseComplement st.seq else st.seq) ∧
    (_fillAligned ga pm refName refSeq rID hID record st len).1.qual =
      (if alignedDoFlip pm st.info len then st.qual.reverse else st.qual) := by
  refine ⟨?_, ?_, ?_, ?_, ?_, ?_, ?_⟩ <;>
    simp [_fillAligned, _alignAndSetCigar, _fillTags, _flipState, alignedDoFlip, alignedIsRC,
      setTagValue] <;>
    split <;> simp

/-- Field characterization of the record produced by `_fillUnaligned`, for a
record with an empty tags dictionary (as handed over by `_initialize`). -/
theorem _fillUnaligned_fields (record : BamAlignmentRecord)
    (info : SequencingSimulationInfo) (seq : List Dna5) (qual : List Char)
    (refName : String) (hID : Int) (ovl : Bool) (ht : record.tags = []) :
    (_fillUnaligned record info seq qual refName hID ovl).flag = BAM_FLAG_UNMAPPED ∧
    (_fillUnaligned record info seq qual refName hID ovl).rID = INVALID_REFID ∧
    (_fillUnaligned record info seq qual refName hID ovl).beginPos = INVALID_POS ∧
    (_fillUnaligned record info seq qual refName hID ovl).seq = seq ∧
    (_fillUnaligned record info seq qual refName hID ovl).qual = qual ∧
    (_fillUnaligned record info seq qual refName hID ovl).rNextId = record.rNextId ∧
    (_fillUnaligned record info seq qual refName hID ovl).pNext = record.pNext ∧
    (_fillUnaligned record info seq qual refName hID ovl).tLen = record.tLen ∧
    lookupTag "uR" (_fillUnaligned record info seq qual refName hID ovl).tags =
      some (BamTagValue.charVal (if ovl then 'B' else 'I')) ∧
    lookupTag "oR" (_fillUnaligned record info seq qual refName hID ovl).tags =
      some (BamTagValue.strVal refName) ∧
    lookupTag "oP" (_fillUnaligned record info seq qual refName hID ovl).tags =
      some (BamTagValue.intVal info.beginPos) ∧
    lookupTag "oH" (_fillUnaligned record info seq qual refName hID ovl).tags =
      some (BamTagValue.intVal (hID + 1)) ∧
    lookupTag "oS" (_fillUnaligned record info seq qual refName hID ovl).tags =
      some (BamTagValue.charVal (if info.isForward then 'F' else 'R')) := by
  refine ⟨?_, ?_, ?_, ?_, ?_, ?_, ?_, ?_, ?_, ?_, ?_, ?_, ?_⟩ <;>
    simp [_fillUnaligned, setTagValue, lookupTag, ht]

/-- `SingleEndRecordBuilder.build` on the unmapped path. -/
theorem SingleEnd_build_eq_unmapped (ga : GlobalAlignmentFun) (pm : PositionMap)
    (refName : String) (refSeq : List Dna5) (rID hID fID : Int) (st : ReadState)
    (h : isUnmappedRead pm st.info = true) :
    SingleEndRecordBuilder.build ga pm refName refSeq rID hID fID st =
      (_fillUnaligned
        { flag := 0, rNextId := INVALID_REFID, pNext := INVALID_POS, tLen := INVALID_LEN }
        { st.info with rID := rID, hID := hID } st.seq st.qual refName hID
        (overlapsBP pm st.info),
       { st with info := { st.info with rID := rID, hID := hID } }) := by
  simp [SingleEndRecordBuilder.build, SingleEndRecordBuilder._initialize,
    isUnmappedRead_setIds, overlapsBP_setIds, h]

/-- `SingleEndRecordBuilder.build` on the aligned path. -/
theorem SingleEnd_build_eq_aligned (ga : GlobalAlignmentFun) (pm : PositionMap)
    (refName : String) (refSeq : List Dna5) (rID hID fID : Int) (st : ReadState)
    (h : isUnmappedRead pm st.info = false) :
    SingleEndRecordBuilder.build ga pm refName refSeq rID hID fID st =
      _fillAligned ga pm refName refSeq rID hID
        { flag := 0, rNextId := INVALID_REFID, pNext := INVALID_POS, tLen := INVALID_LEN }
        { st with info := { st.info with rID := rID, hID := hID } }
        (_getLengthInRef st.info.cigar) := by
  simp [SingleEndRecordBuilder.build, SingleEndRecordBuilder._initialize,
    isUnmappedRead_setIds, h]

/-- `_pairComplete` when both mates are mapped reduces to the both-mapped arm
applied to the `FIRST`/`LAST`/`MULTIPLE`-flagged records. -/
theorem _pairComplete_false_false (lenL lenR : Int) (recL recR : BamAlignmentRecord) :
    _pairComplete false false lenL lenR recL recR =
      _pairCompleteBothMapped lenL lenR
        { recL with flag := recL.flag ||| BAM_FLAG_FIRST ||| BAM_FLAG_MULTIPLE }
        { recR with flag := recR.flag ||| BAM_FLAG_LAST ||| BAM_FLAG_MULTIPLE } := by
  simp [_pairComplete]

/-- `tLen` and `beginPos` of the both-mapped completion when the two records
sit on the same contig. -/
theorem _pairCompleteBothMapped_fields (lenL lenR : Int) (recL recR : BamAlignmentRecord)
    (hid : recL.rID = recR.rID) :
    (_pairCompleteBothMapped lenL lenR recL recR).1.tLen =
      (if recL.beginPos < recR.beginPos then recR.beginPos + lenR - recL.beginPos
       else recL.beginPos + lenL - recR.beginPos) ∧
    (_pairCompleteBothMapped lenL lenR recL recR).2.tLen =
      -((_pairCompleteBothMapped lenL lenR recL recR).1.tLen) ∧
    (_pairCompleteBothMapped lenL lenR recL recR).1.beginPos = recL.beginPos ∧
    (_pairCompleteBothMapped lenL lenR recL recR).2.beginPos = recR.beginPos := by
  refine ⟨?_, ?_, ?_, ?_⟩ <;>
    simp [_pairCompleteBothMapped, hid, hasFlagRC,
      apply_ite BamAlignmentRecord.tLen, apply_ite BamAlignmentRecord.beginPos]

/-- `PairedEndRecordBuilder.build` when both mates are mapped. -/
theorem PairedEnd_build_eq_mapped (ga : GlobalAlignmentFun) (pm : PositionMap)
    (refName : String) (refSeq : List Dna5) (rID hID fID : Int) (st : PairState)
    (hL : isUnmappedRead pm st.infoL = false) (hR : isUnmappedRead pm st.infoR = false) :
    PairedEndRecordBuilder.build ga pm refName refSeq rID hID fID st =
      ((_pairComplete false false
          (_getLengthInRef st.infoL.cigar) (_getLengthInRef st.infoR.cigar)
          (_fillAligned ga pm refName refSeq rID hID
            { flag := 0, rNextId := INVALID_REFID, pNext := INVALID_POS, tLen := INVALID_LEN }
            ⟨{ st.infoL with rID := rID, hID := hID }, st.seqL, st.qualL⟩
            (_getLengthInRef st.infoL.cigar)).1
          (_fillAligned ga pm refName refSeq rID hID
            { flag := 0, rNextId := INVALID_REFID, pNext := INVALID_POS, tLen := INVALID_LEN }
            ⟨{ st.infoR with rID := rID, hID := hID }, st.seqR, st.qualR⟩
            (_getLengthInRef st.infoR.cigar)).1).1,
       (_pairComplete false false
          (_getLengthInRef st.infoL.cigar) (_getLengthInRef st.infoR.cigar)
          (_fillAligned ga pm refName refSeq rID hID
            { flag := 0, rNextId := INVALID_REFID, pNext := INVALID_POS, tLen := INVALID_LEN }
            ⟨{ st.infoL with rID := rID, hID := hID }, st.seqL, st.qualL⟩
            (_getLengthInRef st.infoL.cigar)).1
          (_fillAligned ga pm refName refSeq rID hID
            { flag := 0, rNextId := INVALID_REFID, pNext := INVALID_POS, tLen := INVALID_LEN }
            ⟨{ st.infoR with rID := rID, hID := hID }, st.seqR, st.qualR⟩
            (_getLengthInRef st.infoR.cigar)).1).2,
       { infoL := { st.infoL with rID := rID, hID := hID },
         infoR := { st.infoR with rID := rID, hID := hID },
         seqL := st.seqL, seqR := st.seqR, qualL := st.qualL, qualR := st.qualR }) := by
  simp [PairedEndRecordBuilder.build, isUnmappedRead_setIds, hL, hR,
    _fillAligned_state, apply_ite Prod.snd]

/-- `tLen` facts of the both-mapped completion, at the `_pairComplete` level. -/
theorem _pairComplete_mapped_tLen (lenL lenR : Int) (rL rR : BamAlignmentRecord)
    (hid : rL.rID = rR.rID) :
    (_pairComplete false false lenL lenR rL rR).2.tLen =
      -((_pairComplete false false lenL lenR rL rR).1.tLen) ∧
    (_pairComplete false false lenL lenR rL rR).1.tLen =
      (if (_pairComplete false false lenL lenR rL rR).1.beginPos <
          (_pairComplete false false lenL lenR rL rR).2.beginPos then
        (_pairComplete false false lenL lenR rL rR).2.beginPos + lenR -
          (_pairComplete false false lenL lenR rL rR).1.beginPos
      else
        (_pairComplete false false lenL lenR rL rR).1.beginPos + lenL -
          (_pairComplete false false lenL lenR rL rR).2.beginPos) := by
  rw [_pairComplete_false_false]
  obtain ⟨f1, f2, f3, f4⟩ := _pairCompleteBothMapped_fields lenL lenR
    { rL with flag := rL.flag ||| BAM_FLAG_FIRST ||| BAM_FLAG_MULTIPLE }
    { rR with flag := rR.flag ||| BAM_FLAG_LAST ||| BAM_FLAG_MULTIPLE } hid
  refine ⟨f2, ?_⟩
  rw [f1, f3, f4]

/-- One distribution step: appending ordinal `n` to its bucket. -/
theorem distributeFragmentIds_succ (pickId : Nat → Nat) (nb n : Nat) :
    distributeFragmentIds pickId nb (n + 1) =
      (distributeFragmentIds pickId nb n).set (pickId n)
        (((distributeFragmentIds pickId nb n).getD (pickId n) []) ++ [n]) := by
  simp [distributeFragmentIds, List.range_succ]

/-- Distribution never changes the number of buckets. -/
theorem distributeFragmentIds_length (pickId : Nat → Nat) (nb n : Nat) :
    (distributeFragmentIds pickId nb n).length = nb := by
  induction n with
  | zero => simp [distributeFragmentIds]
  | succ n ih => rw [distributeFragmentIds_succ]; simp [ih]

/-- Appending one element to an in-range bucket grows the total size by one. -/
theorem sum_map_length_set (l : List (List Nat)) (k x : Nat) (hk : k < l.length) :
    ((l.set k ((l.getD k []) ++ [x])).map List.length).sum = (l.map List.length).sum + 1 := by
  induction l generalizing k with
  | nil => simp at hk
  | cons a t ih =>
    cases k with
    | zero => simp [List.getD]; omega
    | succ k =>
      simp only [List.set_cons_succ, List.getD_cons_succ, List.map_cons, List.sum_cons]
      rw [ih k (by simpa using hk)]
      omega

/-- Appending one element to an in-range bucket grows the total multiplicity of
`j` by one exactly when the element is `j`. -/
theorem sum_map_count_set (l : List (List Nat)) (k x j : Nat) (hk : k < l.length) :
    ((l.set k ((l.getD k []) ++ [x])).map (fun file => file.count j)).sum =
      ((l.map (fun file => file.count j)).sum) + (if x = j then 1 else 0) := by
  induction l generalizing k with
  | nil => simp at hk
  | cons a t ih =>
    cases k with
    | zero =>
      simp [List.getD, List.count_append, List.count_cons, List.count_nil]
      split <;> omega
    | succ k =>
      simp only [List.set_cons_succ, List.getD_cons_succ, List.map_cons, List.sum_cons]
      rw [ih k (by simpa using hk)]
      omega

/-- After distributing `n` ordinals, ordinal `j` sits in the buckets exactly
once when `j < n` and not at all otherwise. -/
theorem distributeFragmentIds_count (pickId : Nat → Nat) (nb n : Nat)
    (h : ∀ i, i < n → pickId i < nb) (j : Nat) :
    ((distributeFragmentIds pickId nb n).map (fun file => file.count j)).sum =
      if j < n then 1 else 0 := by
  induction n with
  | zero => simp [distributeFragmentIds]
  | succ n ih =>
    rw [distributeFragmentIds_succ,
      sum_map_count_set _ _ _ _
        (by rw [distributeFragmentIds_length]; exact h n (Nat.lt_succ_self n)),
      ih (fun i hi => h i (Nat.lt_succ_of_lt hi))]
    split_ifs <;> omega

/-- After distributing `n` ordinals, the buckets hold `n` entries in total. -/
theorem distributeFragmentIds_sum_length (pickId : Nat → Nat) (nb n : Nat)
    (h : ∀ i, i < n → pickId i < nb) :
    ((distributeFragmentIds pickId nb n).map List.length).sum = n := by
  induction n with
  | zero => simp [distributeFragmentIds]
  | succ n ih =>
    rw [distributeFragmentIds_succ,
      sum_map_length_set _ _ _
        (by rw [distributeFragmentIds_length]; exact h n (Nat.lt_succ_self n)),
      ih (fun i hi => h i (Nat.lt_succ_of_lt hi))]

/-- Claim C10: every record built by `SingleEndRecordBuilder.build` keeps the
mate fields `rNextId`, `pNext` and `tLen` at their invalid sentinels, carries
none of `MULTIPLE`, `FIRST`, `LAST`, `ALL_PROPER`, `NEXT_RC` or
`NEXT_UNMAPPED`, and its flag is exactly `0`, `UNMAPPED` or `RC`. -/
theorem c10_single_end_invariants (ga : GlobalAlignmentFun) (pm : PositionMap)
    (refName : String) (refSeq : List Dna5) (rID hID fID : Int) (st : ReadState) :
    (SingleEndRecordBuilder.build ga pm refName refSeq rID hID fID st).1.rNextId =
      INVALID_REFID ∧
    (SingleEndRecordBuilder.build ga pm refName refSeq rID hID fID st).1.pNext =
      INVALID_POS ∧
    (SingleEndRecordBuilder.build ga pm refName refSeq rID hID fID st).1.tLen =
      INVALID_LEN ∧
    (SingleEndRecordBuilder.build ga pm refName refSeq rID hID fID st).1.flag &&&
      (BAM_FLAG_MULTIPLE ||| BAM_FLAG_FIRST ||| BAM_FLAG_LAST ||| BAM_FLAG_ALL_PROPER |||
        BAM_FLAG_NEXT_RC ||| BAM_FLAG_NEXT_UNMAPPED) = 0 ∧
    ((SingleEndRecordBuilder.build ga pm refName refSeq rID hID fID st).1.flag = 0 ∨
      (SingleEndRecordBuilder.build ga pm refName refSeq rID hID fID st).1.flag =
        BAM_FLAG_UNMAPPED ∨
      (SingleEndRecordBuilder.build ga pm refName refSeq rID hID fID st).1.flag =
        BAM_FLAG_RC) := by
  cases h : isUnmappedRead pm st.info with
  | true =>
    rw [SingleEnd_build_eq_unmapped ga pm refName refSeq rID hID fID st h]
    refine ⟨?_, ?_, ?_, ?_, ?_⟩ <;> simp [_fillUnaligned, setTagValue] <;> decide
  | false =>
    rw [SingleEnd_build_eq_aligned ga pm refName refSeq rID hID fID st h]
    obtain ⟨h1, h2, h3, h4, h5, h6, h7⟩ :=
      _fillAligned_fields ga pm refName refSeq rID hID
        { flag := 0, rNextId := INVALID_REFID, pNext := INVALID_POS, tLen := INVALID_LEN }
        { st with info := { st.info with rID := rID, hID := hID } }
        (_getLengthInRef st.info.cigar)
    refine ⟨h1, h2, h3, ?_, ?_⟩ <;> rw [h5] <;> split <;> decide

/-- Claim C5: on the aligned path of the single-end builder, the record's
reverse-complement flag is set if and only if `info.isForward` equals the
orientation-reversed bit `alignedIsRC` derived from `toSmallVarInterval`
answering with `a > b`, and under exactly that condition the record's
sequence is the reverse complement of the read state's sequence and its
quality string is reversed (the state itself is flipped and restored,
cf. `c9_state_restored`). -/
theorem c5_flip_iff (ga : GlobalAlignmentFun) (pm : PositionMap)
    (refName : String) (refSeq : List Dna5) (rID hID fID : Int) (st : ReadState)
    (h : isUnmappedRead pm st.info = false) :
    (((SingleEndRecordBuilder.build ga pm refName refSeq rID hID fID st).1.flag &&&
        BAM_FLAG_RC ≠ 0) ↔
      alignedDoFlip pm st.info (_getLengthInRef st.info.cigar) = true) ∧
    (SingleEndRecordBuilder.build ga pm refName refSeq rID hID fID st).1.seq =
      (if alignedDoFlip pm st.info (_getLengthInRef st.info.cigar) then
        reverseComplement st.seq
      else st.seq) ∧
    (SingleEndRecordBuilder.build ga pm refName refSeq rID hID fID st).1.qual =
      (if alignedDoFlip pm st.info (_getLengthInRef st.info.cigar) then st.qual.reverse
      else st.qual) := by
  rw [SingleEnd_build_eq_aligned ga pm refName refSeq rID hID fID st h]
  obtain ⟨h1, h2, h3, h4, h5, h6, h7⟩ :=
    _fillAligned_fields ga pm refName refSeq rID hID
      { flag := 0, rNextId := INVALID_REFID, pNext := INVALID_POS, tLen := INVALID_LEN }
      { st with info := { st.info with rID := rID, hID := hID } }
      (_getLengthInRef st.info.cigar)
  refine ⟨?_, ?_, ?_⟩
  · rw [h5]
    simp [alignedDoFlip, alignedIsRC]
    split <;> simp_all <;> decide
  · rw [h6]
    simp [alignedDoFlip, alignedIsRC]
  · rw [h7]
    simp [alignedDoFlip, alignedIsRC]

/-- Claim C5 witness: with the inverted-interval position map `pmInverted` and
the forward read state `seSt0`, the flip condition holds, the RC flag is set,
and the record carries the reverse-complemented sequence and reversed
qualities. -/
theorem c5_flip_iff_witness :
    (((SingleEndRecordBuilder.build gaZero pmInverted "ref" refSeq0 0 0 0 seSt0).1.flag &&&
        BAM_FLAG_RC ≠ 0) ↔
      alignedDoFlip pmInverted seSt0.info (_getLengthInRef seSt0.info.cigar) = true) ∧
    (SingleEndRecordBuilder.build gaZero pmInverted "ref" refSeq0 0 0 0 seSt0).1.seq =
      (if alignedDoFlip pmInverted seSt0.info (_getLengthInRef seSt0.info.cigar) then
        reverseComplement seSt0.seq
      else seSt0.seq) ∧
    (SingleEndRecordBuilder.build gaZero pmInverted "ref" refSeq0 0 0 0 seSt0).1.qual =
      (if alignedDoFlip pmInverted seSt0.info (_getLengthInRef seSt0.info.cigar) then
        seSt0.qual.reverse
      else seSt0.qual) :=
  c5_flip_iff gaZero pmInverted "ref" refSeq0 0 0 0 seSt0 (by decide)

/-- Claim C4: a record built by `SingleEndRecordBuilder.build` carries the
`UNMAPPED` flag exactly when the simulated interval overlaps a breakpoint or
the covering genomic interval is `INSERTED` (`isUnmappedRead`); in that case
`rID` and `beginPos` are the invalid sentinels, the sequence and quality are
copied in the original simulator orientation, the `uR` tag is `B` on a
breakpoint overlap and `I` otherwise (inserted region), and the `oR`, `oP`,
`oH`, `oS` tags are emitted. -/
theorem c4_unmapped_iff (ga : GlobalAlignmentFun) (pm : PositionMap)
    (refName : String) (refSeq : List Dna5) (rID hID fID : Int) (st : ReadState) :
    (((SingleEndRecordBuilder.build ga pm refName refSeq rID hID fID st).1.flag &&&
        BAM_FLAG_UNMAPPED ≠ 0) ↔ isUnmappedRead pm st.info = true) ∧
    (isUnmappedRead pm st.info = true →
      (SingleEndRecordBuilder.build ga pm refName refSeq rID hID fID st).1.rID =
        INVALID_REFID ∧
      (SingleEndRecordBuilder.build ga pm refName refSeq rID hID fID st).1.beginPos =
        INVALID_POS ∧
      (SingleEndRecordBuilder.build ga pm refName refSeq rID hID fID st).1.seq = st.seq ∧
      (SingleEndRecordBuilder.build ga pm refName refSeq rID hID fID st).1.qual = st.qual ∧
      lookupTag "uR"
          (SingleEndRecordBuilder.build ga pm refName refSeq rID hID fID st).1.tags =
        some (BamTagValue.charVal (if overlapsBP pm st.info then 'B' else 'I')) ∧
      lookupTag "oR"
          (SingleEndRecordBuilder.build ga pm refName refSeq rID hID fID st).1.tags =
        some (BamTagValue.strVal refName) ∧
      lookupTag "oP"
          (SingleEndRecordBuilder.build ga pm refName refSeq rID hID fID st).1.tags =
        some (BamTagValue.intVal st.info.beginPos) ∧
      lookupTag "oH"
          (SingleEndRecordBuilder.build ga pm refName refSeq rID hID fID st).1.tags =
        some (BamTagValue.intVal (hID + 1)) ∧
      lookupTag "oS"
          (SingleEndRecordBuilder.build ga pm refName refSeq rID hID fID st).1.tags =
        some (BamTagValue.charVal (if st.info.isForward then 'F' else 'R'))) := by
  cases h : isUnmappedRead pm st.info with
  | true =>
    rw [SingleEnd_build_eq_unmapped ga pm refName refSeq rID hID fID st h]
    obtain ⟨g1, g2, g3, g4, g5, g6, g7, g8, g9, g10, g11, g12, g13⟩ :=
      _fillUnaligned_fields
        { flag := 0, rNextId := INVALID_REFID, pNext := INVALID_POS, tLen := INVALID_LEN }
        { st.info with rID := rID, hID := hID } st.seq st.qual refName hID
        (overlapsBP pm st.info) rfl
    refine ⟨?_, fun _ => ⟨g2, g3, g4, g5, g9, g10, ?_, g12, ?_⟩⟩
    · rw [g1]; decide
    · exact g11
    · exact g13
  | false =>
    rw [SingleEnd_build_eq_aligned ga pm refName refSeq rID hID fID st h]
    obtain ⟨h1, h2, h3, h4, h5, h6, h7⟩ :=
      _fillAligned_fields ga pm refName refSeq rID hID
        { flag := 0, rNextId := INVALID_REFID, pNext := INVALID_POS, tLen := INVALID_LEN }
        { st with info := { st.info with rID := rID, hID := hID } }
        (_getLengthInRef st.info.cigar)
    refine ⟨?_, by simp⟩
    rw [h5]
    constructor
    · intro hc
      exfalso
      revert hc
      split <;> decide
    · intro hc
      exact absurd hc (by simp)

/-- Claim C4 witness: with the all-breakpoints position map `pmAllBreak` and
the read state `seSt0` (forward read at position 2), the built record is
unmapped with invalid `rID`/`beginPos`, original-orientation sequence and
qualities, `uR = B`, and the `oR`, `oP`, `oH`, `oS` tags. -/
theorem c4_unmapped_iff_witness :
    (SingleEndRecordBuilder.build gaZero pmAllBreak "ref" refSeq0 0 0 0 seSt0).1.rID =
      INVALID_REFID ∧
    (SingleEndRecordBuilder.build gaZero pmAllBreak "ref" refSeq0 0 0 0 seSt0).1.beginPos =
      INVALID_POS ∧
    (SingleEndRecordBuilder.build gaZero pmAllBreak "ref" refSeq0 0 0 0 seSt0).1.seq =
      seSt0.seq ∧
    (SingleEndRecordBuilder.build gaZero pmAllBreak "ref" refSeq0 0 0 0 seSt0).1.qual =
      seSt0.qual ∧
    lookupTag "uR"
        (SingleEndRecordBuilder.build gaZero pmAllBreak "ref" refSeq0 0 0 0 seSt0).1.tags =
      some (BamTagValue.charVal (if overlapsBP pmAllBreak seSt0.info then 'B' else 'I')) ∧
    lookupTag "oR"
        (SingleEndRecordBuilder.build gaZero pmAllBreak "ref" refSeq0 0 0 0 seSt0).1.tags =
      some (BamTagValue.strVal "ref") ∧
    lookupTag "oP"
        (SingleEndRecordBuilder.build gaZero pmAllBreak "ref" refSeq0 0 0 0 seSt0).1.tags =
      some (BamTagValue.intVal seSt0.info.beginPos) ∧
    lookupTag "oH"
        (SingleEndRecordBuilder.build gaZero pmAllBreak "ref" refSeq0 0 0 0 seSt0).1.tags =
      some (BamTagValue.intVal (0 + 1)) ∧
    lookupTag "oS"
        (SingleEndRecordBuilder.build gaZero pmAllBreak "ref" refSeq0 0 0 0 seSt0).1.tags =
      some (BamTagValue.charVal (if seSt0.info.isForward then 'F' else 'R')) :=
  (c4_unmapped_iff gaZero pmAllBreak "ref" refSeq0 0 0 0 seSt0).2 (by decide)

/-- Claim C9: after `SingleEndRecordBuilder.build` (and likewise after
`PairedEndRecordBuilder.build`, whose aligned arms use the same flip/restore
`_fillAligned`), the read state handed back equals the state at entry except
for the info's `rID` and `hID` fields: the sequence buffer, the quality
buffer, and the info CIGAR are unchanged, because flipping twice is the
identity (`reverseComplement` and `List.reverse` are involutions). -/
theorem c9_state_restored (ga : GlobalAlignmentFun) (pm : PositionMap)
    (refName : String) (refSeq : List Dna5) (rID hID fID : Int) (st : ReadState)
    (pst : PairState) :
    (SingleEndRecordBuilder.build ga pm refName refSeq rID hID fID st).2 =
      { st with info := { st.info with rID := rID, hID := hID } } ∧
    (PairedEndRecordBuilder.build ga pm refName refSeq rID hID fID pst).2.2 =
      { pst with
        infoL := { pst.infoL with rID := rID, hID := hID },
        infoR := { pst.infoR with rID := rID, hID := hID } } := by
  constructor
  · cases h : isUnmappedRead pm st.info with
    | true => rw [SingleEnd_build_eq_unmapped ga pm refName refSeq rID hID fID st h]
    | false =>
      rw [SingleEnd_build_eq_aligned ga pm refName refSeq rID hID fID st h]
      exact _fillAligned_state ga pm refName refSeq rID hID _ _ _
  · simp [PairedEndRecordBuilder.build, _fillAligned_state, apply_ite Prod.snd]

/-- Claim C2 (amended): for every pair built with both mates mapped, the two
records sit on the same contig (both get the builder's `rID`), so
`tLen(L) = -tLen(R)` always holds; the magnitude is `beginPos(R) + lenR -
beginPos(L)` when the left record begins strictly first and `beginPos(L) +
lenL - beginPos(R)` otherwise — i.e. it is measured to the end of the mate
that begins later (the left/FIRST record always receives the non-negated
value), not to `max end - min begin`, and not sign-assigned by which mate is
upstream. -/
theorem c2_tlen_amended (ga : GlobalAlignmentFun) (pm : PositionMap)
    (refName : String) (refSeq : List Dna5) (rID hID fID : Int) (st : PairState)
    (hL : isUnmappedRead pm st.infoL = false) (hR : isUnmappedRead pm st.infoR = false) :
    (PairedEndRecordBuilder.build ga pm refName refSeq rID hID fID st).2.1.tLen =
      -((PairedEndRecordBuilder.build ga pm refName refSeq rID hID fID st).1.tLen) ∧
    (PairedEndRecordBuilder.build ga pm refName refSeq rID hID fID st).1.tLen =
      (if (PairedEndRecordBuilder.build ga pm refName refSeq rID hID fID st).1.beginPos <
          (PairedEndRecordBuilder.build ga pm refName refSeq rID hID fID st).2.1.beginPos then
        (PairedEndRecordBuilder.build ga pm refName refSeq rID hID fID st).2.1.beginPos +
          _getLengthInRef st.infoR.cigar -
          (PairedEndRecordBuilder.build ga pm refName refSeq rID hID fID st).1.beginPos
      else
        (PairedEndRecordBuilder.build ga pm refName refSeq rID hID fID st).1.beginPos +
          _getLengthInRef st.infoL.cigar -
          (PairedEndRecordBuilder.build ga pm refName refSeq rID hID fID st).2.1.beginPos) := by
  rw [PairedEnd_build_eq_mapped ga pm refName refSeq rID hID fID st hL hR]
  have hid : (_fillAligned ga pm refName refSeq rID hID
      { flag := 0, rNextId := INVALID_REFID, pNext := INVALID_POS, tLen := INVALID_LEN }
      (⟨{ st.infoL with rID := rID, hID := hID }, st.seqL, st.qualL⟩ : ReadState)
      (_getLengthInRef st.infoL.cigar)).1.rID =
    (_fillAligned ga pm refName refSeq rID hID
      { flag := 0, rNextId := INVALID_REFID, pNext := INVALID_POS, tLen := INVALID_LEN }
      (⟨{ st.infoR with rID := rID, hID := hID }, st.seqR, st.qualR⟩ : ReadState)
      (_getLengthInRef st.infoR.cigar)).1.rID := by
    rw [(_fillAligned_fields ga pm refName refSeq rID hID
      { flag := 0, rNextId := INVALID_REFID, pNext := INVALID_POS, tLen := INVALID_LEN }
      (⟨{ st.infoL with rID := rID, hID := hID }, st.seqL, st.qualL⟩ : ReadState)
      (_getLengthInRef st.infoL.cigar)).2.2.2.1,
      (_fillAligned_fields ga pm refName refSeq rID hID
      { flag := 0, rNextId := INVALID_REFID, pNext := INVALID_POS, tLen := INVALID_LEN }
      (⟨{ st.infoR with rID := rID, hID := hID }, st.seqR, st.qualR⟩ : ReadState)
      (_getLengthInRef st.infoR.cigar)).2.2.2.1]
  exact _pairComplete_mapped_tLen _ _ _ _ hid

/-- Claim C2 witness: with the identity position map and `pairSt0` (left mate
`[2, 4)`, right mate `[0, 10)`, both mapped), the amended statement holds
concretely: `tLen(R) = -tLen(L)` and `tLen(L)` follows the code's
begin-comparison formula. -/
theorem c2_tlen_amended_witness :
    (PairedEndRecordBuilder.build gaZero pmIdentity "ref" refSeq0 0 0 0 pairSt0).2.1.tLen =
      -((PairedEndRecordBuilder.build gaZero pmIdentity "ref" refSeq0 0 0 0 pairSt0).1.tLen) ∧
    (PairedEndRecordBuilder.build gaZero pmIdentity "ref" refSeq0 0 0 0 pairSt0).1.tLen =
      (if (PairedEndRecordBuilder.build gaZero pmIdentity "ref" refSeq0 0 0 0 pairSt0).1.beginPos <
          (PairedEndRecordBuilder.build gaZero pmIdentity "ref" refSeq0 0 0 0 pairSt0).2.1.beginPos then
        (PairedEndRecordBuilder.build gaZero pmIdentity "ref" refSeq0 0 0 0 pairSt0).2.1.beginPos +
          _getLengthInRef pairSt0.infoR.cigar -
          (PairedEndRecordBuilder.build gaZero pmIdentity "ref" refSeq0 0 0 0 pairSt0).1.beginPos
      else
        (PairedEndRecordBuilder.build gaZero pmIdentity "ref" refSeq0 0 0 0 pairSt0).1.beginPos +
          _getLengthInRef pairSt0.infoL.cigar -
          (PairedEndRecordBuilder.build gaZero pmIdentity "ref" refSeq0 0 0 0 pairSt0).2.1.beginPos) :=
  c2_tlen_amended gaZero pmIdentity "ref" refSeq0 0 0 0 pairSt0 (by decide) (by decide)

/-- Claim C8: the distribute phase writes each ordinal `0 .. numFragments-1`
to exactly one bucket, so the bucket sizes sum to `numFragments` and every
ordinal below `numFragments` occurs exactly once across all buckets (provided
each pick lands on an existing bucket, as `ContigPicker.toId` guarantees). -/
theorem c8_distribute_sum (pickId : Nat → Nat) (numBuckets numFragments : Nat)
    (h : ∀ i, i < numFragments → pickId i < numBuckets) :
    ((distributeFragmentIds pickId numBuckets numFragments).map List.length).sum =
      numFragments ∧
    ∀ j, j < numFragments →
      ((distributeFragmentIds pickId numBuckets numFragments).map
        (fun file => file.count j)).sum = 1 := by
  refine ⟨distributeFragmentIds_sum_length pickId numBuckets numFragments h, fun j hj => ?_⟩
  rw [distributeFragmentIds_count pickId numBuckets numFragments h j]
  simp [hj]

/-- Claim C8 witness: distributing two ordinals into a single bucket gives
total size 2 and ordinal 1 occurs exactly once. -/
theorem c8_distribute_sum_witness :
    ((distributeFragmentIds (fun _ => 0) 1 2).map List.length).sum = 2 ∧
    ((distributeFragmentIds (fun _ => 0) 1 2).map (fun file => file.count 1)).sum = 1 :=
  ⟨(c8_distribute_sum (fun _ => 0) 1 2 (fun _ _ => Nat.one_pos)).1,
   (c8_distribute_sum (fun _ => 0) 1 2 (fun _ _ => Nat.one_pos)).2 1 (by decide)⟩
